import Mathlib

/-!
Shallow embedding of the contact-form validation and submission flow of
`src/javascript.js` (functions `validateField`, `showFormStatus`,
`handleFormSubmit`), together with theorems settling the claims about it.

Strings are modelled by Lean `String` (a list of characters); the JS
regular expressions used by the code are fixed character-class patterns and
are embedded as direct decidable matchers.  The DOM state touched by the
flow (field values, field error styling, the status region, the submit
button) is modelled by explicit records, and the asynchronous `fetch` call
by an environment value `FetchOutcome` describing how the request settles.
-/

namespace Portfolio

/-- The JavaScript whitespace class: the characters matched by `\s` in a JS
regular expression and stripped by `String.prototype.trim` (WhiteSpace and
LineTerminator code points). -/
def jsWhitespaceCodes : List Nat :=
  [0x09, 0x0a, 0x0b, 0x0c, 0x0d, 0x20, 0xa0, 0x1680,
   0x2028, 0x2029, 0x202f, 0x205f, 0x3000, 0xfeff]

def isJsSpace (c : Char) : Bool :=
  jsWhitespaceCodes.contains c.toNat ||
    decide (0x2000 ≤ c.toNat ∧ c.toNat ≤ 0x200a)

/-- JS `String.prototype.trim`: drop JS whitespace from both ends. -/
def jsTrim (s : String) : String :=
  ⟨((s.data.dropWhile isJsSpace).reverse.dropWhile isJsSpace).reverse⟩

/-- One character of the class `[a-zA-Z\s'-]` from the name regex
`/^[a-zA-Z\s'-]+$/` in `validateField`. -/
def nameCharOk (c : Char) : Bool :=
  decide (0x41 ≤ c.toNat ∧ c.toNat ≤ 0x5a) ||
  decide (0x61 ≤ c.toNat ∧ c.toNat ≤ 0x7a) ||
  isJsSpace c || c == '\x27' || c == '-'

/-- The test `/^[a-zA-Z\s'-]+$/.test(value)`: the whole string is a
non-empty run of characters of the class. -/
def nameRegexTest (s : String) : Bool :=
  !s.data.isEmpty && s.data.all nameCharOk

/-- One character of the class `[^\s@]` from the email regex. -/
def emailCharOk (c : Char) : Bool :=
  !isJsSpace c && c != '@'

/-- The test `/^[^\s@]+@[^\s@]+\.[^\s@]+$/.test(value)`.  A string matches
exactly when it splits as `A ++ "@" ++ B ++ "." ++ C` with `A`, `B`, `C`
non-empty and every character of them in `[^\s@]`.  Since `A` cannot
contain `@`, the `@` of the pattern is the first `@` of the string; since
`.` itself belongs to `[^\s@]`, the `.` of the pattern may be any dot of
the part after the `@` that is neither its first nor its last character. -/
def emailRegexTest (s : String) : Bool :=
  let localPart := s.data.takeWhile (fun c => c != '@')
  match s.data.dropWhile (fun c => c != '@') with
  | [] => false
  | _ :: domain =>
      !localPart.isEmpty && localPart.all emailCharOk &&
      domain.all emailCharOk && ((domain.drop 1).dropLast.contains '.')

/-- A per-field validation result: the `isValid` flag and `errorMsg`
accumulated by `validateField`. -/
structure ValidationResult where
  isValid : Bool
  errorMsg : String
deriving DecidableEq

/-- The rule part of `validateField` (`src/javascript.js` lines 97-137):
starting from `isValid = true, errorMsg = ''`, each of the three field
blocks runs when the field id matches, first failing rule wins.  `value`
is the already-trimmed field value. -/
def validateRules (id : String) (value : String) : ValidationResult :=
  let r : ValidationResult := ⟨true, ""⟩
  let r := if id = "name" then
      (if value.length = 0 then ⟨false, "Name is required"⟩
       else if value.length < 2 then
         ⟨false, "Name must be at least 2 characters"⟩
       else if !nameRegexTest value then
         ⟨false, "Name can only contain letters, spaces, hyphens, and apostrophes"⟩
       else r)
    else r
  let r := if id = "email" then
      (if value.length = 0 then ⟨false, "Email is required"⟩
       else if !emailRegexTest value then
         ⟨false, "Please enter a valid email address"⟩
       else r)
    else r
  let r := if id = "message" then
      (if value.length = 0 then ⟨false, "Message is required"⟩
       else if value.length < 10 then
         ⟨false, "Message must be at least 10 characters"⟩
       else r)
    else r
  r

/-- The error-display state of one input field: whether it carries the
`error` CSS class and the text of its associated error element. -/
structure FieldUI where
  errorStyled : Bool
  errorText : String
deriving DecidableEq

/-- `validateField` (lines 92-153): trim the field value, apply the rules,
then update the field UI (add the `error` class and show the message when
invalid, clear both when valid) and return the validity flag. -/
def validateField (id : String) (rawValue : String) : Bool × FieldUI :=
  let value := jsTrim rawValue
  let r := validateRules id value
  if !r.isValid then (false, ⟨true, r.errorMsg⟩)
  else (true, ⟨false, ""⟩)

/-- The status region `#form-status`: its text and its class-token list. -/
structure StatusDiv where
  text : String
  classes : List String
deriving DecidableEq

/-- `showFormStatus` (lines 172-185): set the region's text and classes to
`form-status show <type>`, and, only for type `success`, schedule hiding
the region after 4000 ms.  Returns the new region state and the scheduled
auto-dismiss delay (`none` when nothing is scheduled). -/
def showFormStatus (message : String) (type : String) : StatusDiv × Option Nat :=
  (⟨message, ["form-status", "show", type]⟩,
   if type = "success" then some 4000 else none)

/-- The action run by the timeout scheduled in `showFormStatus`:
`statusDiv.classList.remove('show')`. -/
def hideStatus (d : StatusDiv) : StatusDiv :=
  ⟨d.text, d.classes.filter (fun c => c ≠ "show")⟩

/-- The three contact-form field values as they stand in the DOM. -/
structure FormState where
  name : String
  email : String
  message : String
deriving DecidableEq

/-- The submit button state: its `disabled` flag and its label text. -/
structure ButtonState where
  disabled : Bool
  text : String
deriving DecidableEq

/-- How the `fetch` call settles: an HTTP response with a status code, or
a transport-level rejection carrying the rejection's error message (in the
target browser a failed `fetch` rejects with a `TypeError` whose message
contains `Failed to fetch`). -/
inductive FetchOutcome where
  | response (status : Nat)
  | failure (msg : String)
deriving DecidableEq

/-- Contiguous-substring check on character lists: `sub` occurs as a prefix
of some suffix of the list. -/
def infixCheck (sub : List Char) : List Char → Bool
  | [] => sub.isEmpty
  | c :: cs => sub.isPrefixOf (c :: cs) || infixCheck sub cs

/-- JS `String.prototype.includes`: `strIncludes s sub` is true when `sub`
occurs contiguously inside `s`. -/
def strIncludes (s sub : String) : Bool :=
  infixCheck sub.data s.data

/-- The placeholder guard of `handleFormSubmit` (line 210):
`form.action.includes('YOUR_FORMSPREE_ID') || form.action.includes('xyzqwvba')`. -/
def placeholderEndpoint (action : String) : Bool :=
  strIncludes action "YOUR_FORMSPREE_ID" || strIncludes action "xyzqwvba"

def configErrorMsg : String :=
  "⚠️ Configuration Error: Update your Formspree form ID in the HTML. Visit https://formspree.io/create/"

def validationErrorMsg : String :=
  "⚠️ Please fix the errors above and try again."

def successMsg : String :=
  "✓ Message sent successfully! I\x27ll get back to you soon."

def notFoundMsg : String :=
  "❌ Formspree form not found. Update your form ID: https://formspree.io/create/"

def rejectedMsg : String :=
  "❌ Formspree validation error. Check form field names in HTML."

def networkErrorMsg : String :=
  "❌ Network error. Check your internet or CORS settings."

def fallbackErrorMsg : String :=
  "❌ Failed to send message. Try again or email: narvariyasourabh447@gmail.com"

/-- The `.catch` handler of `handleFormSubmit` (lines 274-287): dispatch on
the caught error's message string. -/
def catchMessage (msg : String) : String :=
  if msg = "FORMSPREE_NOT_FOUND" then notFoundMsg
  else if msg = "FORMSPREE_VALIDATION_ERROR" then rejectedMsg
  else if strIncludes msg "Failed to fetch" then networkErrorMsg
  else fallbackErrorMsg

/-- Everything one pass of `handleFormSubmit` does, once the attempt has
settled: whether `fetch` was issued and with which body (`FormData(form)`,
i.e. the raw field values), the status message shown via `showFormStatus`
(message text and type string), whether `form.reset()` ran, the field
values afterwards, the button state during the request (if one was made),
the button state afterwards, and how many times the `.finally` restoration
of the button ran. -/
structure SubmitResult where
  fetchIssued : Bool
  sentBody : Option FormState
  statusShown : Option (String × String)
  resetCalled : Bool
  formAfter : FormState
  buttonDuring : Option ButtonState
  buttonAfter : ButtonState
  restoreCount : Nat
deriving DecidableEq

/-- `handleFormSubmit` (lines 200-293) on one submit event, given the form
action, the current field values, the current button state and how the
`fetch` call would settle.  Mirrors the source: placeholder guard, the
three `validateField` calls, the early returns, the loading state, the
`fetch` with `FormData(form)`, the `.then` status classification (2xx
success + `form.reset()`, 404/422/other thrown as sentinel error
messages), the `.catch` message dispatch and the `.finally` restoration. -/
def handleFormSubmit (action : String) (form : FormState)
    (button : ButtonState) (fetchResult : FetchOutcome) : SubmitResult :=
  if placeholderEndpoint action then
    { fetchIssued := false, sentBody := none,
      statusShown := some (configErrorMsg, "error"),
      resetCalled := false, formAfter := form,
      buttonDuring := none, buttonAfter := button, restoreCount := 0 }
  else
    let isNameValid := (validateField "name" form.name).1
    let isEmailValid := (validateField "email" form.email).1
    let isMessageValid := (validateField "message" form.message).1
    if !isNameValid || !isEmailValid || !isMessageValid then
      { fetchIssued := false, sentBody := none,
        statusShown := some (validationErrorMsg, "error"),
        resetCalled := false, formAfter := form,
        buttonDuring := none, buttonAfter := button, restoreCount := 0 }
    else
      let originalText := button.text
      let sending : ButtonState := { disabled := true, text := "Sending..." }
      let restored : ButtonState := { disabled := false, text := originalText }
      match fetchResult with
      | .response status =>
        if 200 ≤ status ∧ status ≤ 299 then
          { fetchIssued := true, sentBody := some form,
            statusShown := some (successMsg, "success"),
            resetCalled := true,
            formAfter := { name := "", email := "", message := "" },
            buttonDuring := some sending, buttonAfter := restored,
            restoreCount := 1 }
        else
          let errName :=
            if status = 404 then "FORMSPREE_NOT_FOUND"
            else if status = 422 then "FORMSPREE_VALIDATION_ERROR"
            else "FORMSPREE_ERROR_" ++ toString status
          { fetchIssued := true, sentBody := some form,
            statusShown := some (catchMessage errName, "error"),
            resetCalled := false, formAfter := form,
            buttonDuring := some sending, buttonAfter := restored,
            restoreCount := 1 }
      | .failure msg =>
          { fetchIssued := true, sentBody := some form,
            statusShown := some (catchMessage msg, "error"),
            resetCalled := false, formAfter := form,
            buttonDuring := some sending, buttonAfter := restored,
            restoreCount := 1 }

/-- All three fields pass `validateField` on the current values. -/
def allFieldsValid (form : FormState) : Bool :=
  (validateField "name" form.name).1 &&
  (validateField "email" form.email).1 &&
  (validateField "message" form.message).1

/-- Modelled from the spec: the outcome taxonomy of one issued submission
(§3 SubmissionOutcome, restricted to outcomes of an issued request). -/
inductive SubmissionOutcome where
  | success
  | notFound
  | rejectedByServer
  | serverError (status : Nat)
  | networkFailure
deriving DecidableEq

/-- Modelled from the spec: the classification of how an issued request
settled (§4.2 step 4). -/
def classifyResult : FetchOutcome → SubmissionOutcome
  | .response s =>
      if 200 ≤ s ∧ s ≤ 299 then .success
      else if s = 404 then .notFound
      else if s = 422 then .rejectedByServer
      else .serverError s
  | .failure _ => .networkFailure

/-- The fixed user-facing status message (text and type) of each outcome of
an issued submission. -/
def outcomeMessage : SubmissionOutcome → String × String
  | .success => (successMsg, "success")
  | .notFound => (notFoundMsg, "error")
  | .rejectedByServer => (rejectedMsg, "error")
  | .serverError _ => (fallbackErrorMsg, "error")
  | .networkFailure => (networkErrorMsg, "error")

/-! ### Helper lemmas -/

theorem validateRules_name (t : String) :
    validateRules "name" t =
      if t.length = 0 then ⟨false, "Name is required"⟩
      else if t.length < 2 then ⟨false, "Name must be at least 2 characters"⟩
      else if !nameRegexTest t then
        ⟨false, "Name can only contain letters, spaces, hyphens, and apostrophes"⟩
      else ⟨true, ""⟩ := by
  simp [validateRules]

theorem validateRules_email (t : String) :
    validateRules "email" t =
      if t.length = 0 then ⟨false, "Email is required"⟩
      else if !emailRegexTest t then ⟨false, "Please enter a valid email address"⟩
      else ⟨true, ""⟩ := by
  simp [validateRules]

theorem validateRules_message (t : String) :
    validateRules "message" t =
      if t.length = 0 then ⟨false, "Message is required"⟩
      else if t.length < 10 then ⟨false, "Message must be at least 10 characters"⟩
      else ⟨true, ""⟩ := by
  simp [validateRules]

theorem validateRules_other (id t : String) (h1 : id ≠ "name")
    (h2 : id ≠ "email") (h3 : id ≠ "message") :
    validateRules id t = ⟨true, ""⟩ := by
  simp [validateRules, h1, h2, h3]

theorem validateField_fst (id v : String) :
    (validateField id v).1 = (validateRules id (jsTrim v)).isValid := by
  simp only [validateField]
  cases h : (validateRules id (jsTrim v)).isValid <;> simp [h]

theorem validateField_snd (id v : String) :
    (validateField id v).2 =
      (if (validateRules id (jsTrim v)).isValid then ⟨false, ""⟩
       else ⟨true, (validateRules id (jsTrim v)).errorMsg⟩ : FieldUI) := by
  simp only [validateField]
  cases h : (validateRules id (jsTrim v)).isValid <;> simp [h]

theorem mem_data_append {c : Char} {a b : String}
    (h : c ∈ (a ++ b).data) : c ∈ a.data ∨ c ∈ b.data := by
  cases a; cases b
  simpa using h

theorem digitChar_toNat_le (n : Nat) (h : n < 10) :
    (Nat.digitChar n).toNat ≤ 0x39 := by
  interval_cases n <;> decide

theorem toDigitsCore_toNat_le (fuel : Nat) :
    ∀ (n : Nat) (acc : List Char), (∀ c ∈ acc, c.toNat ≤ 0x39) →
      ∀ c ∈ Nat.toDigitsCore 10 fuel n acc, c.toNat ≤ 0x39 := by
  induction fuel with
  | zero =>
    intro n acc hacc c hc
    exact hacc c hc
  | succ fuel ih =>
    intro n acc hacc c hc
    unfold Nat.toDigitsCore at hc
    have hcons : ∀ d ∈ Nat.digitChar (n % 10) :: acc, d.toNat ≤ 0x39 := by
      intro d hd
      rcases List.mem_cons.mp hd with h | h
      · subst h
        exact digitChar_toNat_le _ (Nat.mod_lt _ (by decide))
      · exact hacc d h
    simp only [] at hc
    by_cases hz : n / 10 = 0
    · rw [if_pos hz] at hc
      exact hcons c hc
    · rw [if_neg hz] at hc
      exact ih _ _ hcons c hc

theorem toString_nat_toNat_le (n : Nat) :
    ∀ c ∈ (toString n).data, c.toNat ≤ 0x39 := by
  intro c hc
  have : (toString n).data = Nat.toDigitsCore 10 (n + 1) n [] := rfl
  rw [this] at hc
  exact toDigitsCore_toNat_le _ _ _ (by simp) c hc

theorem formspreeError_ne_notFound (s : Nat) :
    ("FORMSPREE_ERROR_" ++ toString s : String) ≠ "FORMSPREE_NOT_FOUND" := by
  intro h
  have hN : ('N' : Char) ∈ ("FORMSPREE_ERROR_" ++ toString s : String).data := by
    rw [h]; decide
  rcases mem_data_append hN with h' | h'
  · exact absurd h' (by decide)
  · have := toString_nat_toNat_le s _ h'
    simp at this

theorem formspreeError_ne_validationError (s : Nat) :
    ("FORMSPREE_ERROR_" ++ toString s : String) ≠ "FORMSPREE_VALIDATION_ERROR" := by
  intro h
  have hV : ('V' : Char) ∈ ("FORMSPREE_ERROR_" ++ toString s : String).data := by
    rw [h]; decide
  rcases mem_data_append hV with h' | h'
  · exact absurd h' (by decide)
  · have := toString_nat_toNat_le s _ h'
    simp at this

theorem infixCheck_subset (sub : List Char) (l : List Char)
    (h : infixCheck sub l = true) : ∀ c ∈ sub, c ∈ l := by
  induction l with
  | nil =>
    intro c hc
    rw [infixCheck, List.isEmpty_iff] at h
    subst h
    cases hc
  | cons a l ih =>
    intro c hc
    rw [infixCheck, Bool.or_eq_true] at h
    rcases h with h | h
    · exact (List.isPrefixOf_iff_prefix.mp h).subset hc
    · exact List.mem_cons_of_mem a (ih h c hc)

theorem strIncludes_subset (s sub : String)
    (h : strIncludes s sub = true) : ∀ c ∈ sub.data, c ∈ s.data :=
  infixCheck_subset sub.data s.data h

theorem formspreeError_no_failedToFetch (s : Nat) :
    strIncludes ("FORMSPREE_ERROR_" ++ toString s) "Failed to fetch" = false := by
  rcases Bool.eq_false_or_eq_true
      (strIncludes ("FORMSPREE_ERROR_" ++ toString s) "Failed to fetch")
    with h | h
  · exfalso
    have ha : ('a' : Char) ∈ ("FORMSPREE_ERROR_" ++ toString s : String).data :=
      strIncludes_subset _ _ h 'a' (by decide)
    rcases mem_data_append ha with h' | h'
    · exact absurd h' (by decide)
    · have := toString_nat_toNat_le s _ h'
      simp at this
  · exact h

theorem catchMessage_formspreeError (s : Nat) :
    catchMessage ("FORMSPREE_ERROR_" ++ toString s) = fallbackErrorMsg := by
  simp [catchMessage, formspreeError_ne_notFound s,
    formspreeError_ne_validationError s, formspreeError_no_failedToFetch s]

theorem catchMessage_failedToFetch (msg : String)
    (h : strIncludes msg "Failed to fetch" = true) :
    catchMessage msg = networkErrorMsg := by
  have h1 : msg ≠ "FORMSPREE_NOT_FOUND" := by
    rintro rfl; exact absurd h (by decide)
  have h2 : msg ≠ "FORMSPREE_VALIDATION_ERROR" := by
    rintro rfl; exact absurd h (by decide)
  simp [catchMessage, h1, h2, h]

theorem handleFormSubmit_placeholder (action : String) (form : FormState)
    (button : ButtonState) (fr : FetchOutcome)
    (h : placeholderEndpoint action = true) :
    handleFormSubmit action form button fr =
      { fetchIssued := false, sentBody := none,
        statusShown := some (configErrorMsg, "error"),
        resetCalled := false, formAfter := form,
        buttonDuring := none, buttonAfter := button, restoreCount := 0 } := by
  simp [handleFormSubmit, h]

theorem handleFormSubmit_invalid (action : String) (form : FormState)
    (button : ButtonState) (fr : FetchOutcome)
    (hp : placeholderEndpoint action = false)
    (hv : allFieldsValid form = false) :
    handleFormSubmit action form button fr =
      { fetchIssued := false, sentBody := none,
        statusShown := some (validationErrorMsg, "error"),
        resetCalled := false, formAfter := form,
        buttonDuring := none, buttonAfter := button, restoreCount := 0 } := by
  have h' : (!(validateField "name" form.name).1 ||
      !(validateField "email" form.email).1 ||
      !(validateField "message" form.message).1) = true := by
    simp only [allFieldsValid, Bool.and_eq_false_iff] at hv
    rcases hv with (h | h) | h <;> simp [h]
  simp [handleFormSubmit, hp, h']

theorem handleFormSubmit_2xx (action : String) (form : FormState)
    (button : ButtonState) (s : Nat)
    (hp : placeholderEndpoint action = false)
    (hv : allFieldsValid form = true)
    (hs : 200 ≤ s ∧ s ≤ 299) :
    handleFormSubmit action form button (.response s) =
      { fetchIssued := true, sentBody := some form,
        statusShown := some (successMsg, "success"),
        resetCalled := true,
        formAfter := { name := "", email := "", message := "" },
        buttonDuring := some ⟨true, "Sending..."⟩,
        buttonAfter := ⟨false, button.text⟩, restoreCount := 1 } := by
  obtain ⟨⟨h1, h2⟩, h3⟩ : (_ ∧ _) ∧ _ := by
    simpa [allFieldsValid, Bool.and_eq_true] using hv
  simp [handleFormSubmit, hp, h1, h2, h3, hs]

theorem handleFormSubmit_non2xx (action : String) (form : FormState)
    (button : ButtonState) (s : Nat)
    (hp : placeholderEndpoint action = false)
    (hv : allFieldsValid form = true)
    (hs : ¬(200 ≤ s ∧ s ≤ 299)) :
    handleFormSubmit action form button (.response s) =
      { fetchIssued := true, sentBody := some form,
        statusShown := some (catchMessage
          (if s = 404 then "FORMSPREE_NOT_FOUND"
           else if s = 422 then "FORMSPREE_VALIDATION_ERROR"
           else "FORMSPREE_ERROR_" ++ toString s), "error"),
        resetCalled := false, formAfter := form,
        buttonDuring := some ⟨true, "Sending..."⟩,
        buttonAfter := ⟨false, button.text⟩, restoreCount := 1 } := by
  obtain ⟨⟨h1, h2⟩, h3⟩ : (_ ∧ _) ∧ _ := by
    simpa [allFieldsValid, Bool.and_eq_true] using hv
  simp [handleFormSubmit, hp, h1, h2, h3, hs]

theorem handleFormSubmit_transportFailure (action : String) (form : FormState)
    (button : ButtonState) (msg : String)
    (hp : placeholderEndpoint action = false)
    (hv : allFieldsValid form = true) :
    handleFormSubmit action form button (.failure msg) =
      { fetchIssued := true, sentBody := some form,
        statusShown := some (catchMessage msg, "error"),
        resetCalled := false, formAfter := form,
        buttonDuring := some ⟨true, "Sending..."⟩,
        buttonAfter := ⟨false, button.text⟩, restoreCount := 1 } := by
  obtain ⟨⟨h1, h2⟩, h3⟩ : (_ ∧ _) ∧ _ := by
    simpa [allFieldsValid, Bool.and_eq_true] using hv
  simp [handleFormSubmit, hp, h1, h2, h3]

/-! ### Claims -/

/-- C1: a `fetch` is issued by `handleFormSubmit` only if all three fields
(name, email, message) were validated as valid by `validateField` in the
same synchronous pass of the handler; if any of the three validations
fails, no network request is made in that pass. -/
theorem fetch_only_if_all_fields_valid (action : String) (form : FormState)
    (button : ButtonState) (fr : FetchOutcome)
    (h : (handleFormSubmit action form button fr).fetchIssued = true) :
    (validateField "name" form.name).1 = true ∧
    (validateField "email" form.email).1 = true ∧
    (validateField "message" form.message).1 = true := by
  by_cases hp : placeholderEndpoint action = true
  · rw [handleFormSubmit_placeholder _ _ _ _ hp] at h
    simp at h
  · have hp' : placeholderEndpoint action = false := by
      simpa using hp
    by_cases hv : allFieldsValid form = true
    · obtain ⟨⟨h1, h2⟩, h3⟩ : (_ ∧ _) ∧ _ := by
        simpa [allFieldsValid, Bool.and_eq_true] using hv
      exact ⟨h1, h2, h3⟩
    · have hv' : allFieldsValid form = false := by
        simpa using hv
      rw [handleFormSubmit_invalid _ _ _ _ hp' hv'] at h
      simp at h

theorem fetch_only_if_all_fields_valid_witness :
    (handleFormSubmit "https://formspree.io/f/abc123"
        ⟨"Jane Doe", "jane@example.com", "This is a long enough message."⟩
        ⟨false, "Send Message"⟩ (.response 200)).fetchIssued = true ∧
    ((validateField "name" "Jane Doe").1 = true ∧
     (validateField "email" "jane@example.com").1 = true ∧
     (validateField "message" "This is a long enough message.").1 = true) :=
  ⟨by decide, fetch_only_if_all_fields_valid "https://formspree.io/f/abc123"
    ⟨"Jane Doe", "jane@example.com", "This is a long enough message."⟩
    ⟨false, "Send Message"⟩ (.response 200) (by decide)⟩

/-- C3: when the form action is a recognized placeholder value,
`handleFormSubmit` shows the configuration-error status immediately and
issues no network request, regardless of the field values. -/
theorem placeholder_blocks_submission (action : String) (form : FormState)
    (button : ButtonState) (fr : FetchOutcome)
    (h : placeholderEndpoint action = true) :
    (handleFormSubmit action form button fr).fetchIssued = false ∧
    (handleFormSubmit action form button fr).statusShown =
      some (configErrorMsg, "error") := by
  rw [handleFormSubmit_placeholder _ _ _ _ h]
  exact ⟨rfl, rfl⟩

theorem placeholder_blocks_submission_witness :
    (handleFormSubmit "https://formspree.io/f/YOUR_FORMSPREE_ID"
        ⟨"Jane Doe", "jane@example.com", "This is a long enough message."⟩
        ⟨false, "Send Message"⟩ (.response 200)).fetchIssued = false ∧
    (handleFormSubmit "https://formspree.io/f/YOUR_FORMSPREE_ID"
        ⟨"Jane Doe", "jane@example.com", "This is a long enough message."⟩
        ⟨false, "Send Message"⟩ (.response 200)).statusShown =
      some (configErrorMsg, "error") :=
  placeholder_blocks_submission "https://formspree.io/f/YOUR_FORMSPREE_ID"
    ⟨"Jane Doe", "jane@example.com", "This is a long enough message."⟩
    ⟨false, "Send Message"⟩ (.response 200) (by decide)

/-- C8: a status message shown via `showFormStatus` with type `success`
schedules an auto-dismiss (removing the `show` class) after exactly
4000 ms, while a message with type `error` schedules no auto-dismiss and
keeps the `show` class until something else changes it. -/
theorem status_auto_dismiss_success_only (message : String) :
    (showFormStatus message "success").2 = some 4000 ∧
    ((hideStatus (showFormStatus message "success").1).classes.contains "show"
      = false) ∧
    (showFormStatus message "error").2 = none ∧
    ((showFormStatus message "error").1).classes.contains "show" = true :=
  ⟨rfl, by simp [showFormStatus, hideStatus], rfl,
    by simp [showFormStatus]⟩

/-- C9: whenever `handleFormSubmit` issues the POST, its body is built via
`FormData(form)` from the raw current field values, not from the trimmed
values validation was decided on. -/
theorem post_body_uses_raw_field_values (action : String) (form : FormState)
    (button : ButtonState) (fr : FetchOutcome)
    (h : (handleFormSubmit action form button fr).fetchIssued = true) :
    (handleFormSubmit action form button fr).sentBody = some form := by
  by_cases hp : placeholderEndpoint action = true
  · rw [handleFormSubmit_placeholder _ _ _ _ hp] at h
    simp at h
  · have hp' : placeholderEndpoint action = false := by
      simpa using hp
    by_cases hv : allFieldsValid form = true
    · cases fr with
      | response s =>
        by_cases hs : 200 ≤ s ∧ s ≤ 299
        · rw [handleFormSubmit_2xx _ _ _ _ hp' hv hs]
        · rw [handleFormSubmit_non2xx _ _ _ _ hp' hv hs]
      | failure msg =>
        rw [handleFormSubmit_transportFailure _ _ _ _ hp' hv]
    · have hv' : allFieldsValid form = false := by
        simpa using hv
      rw [handleFormSubmit_invalid _ _ _ _ hp' hv'] at h
      simp at h

theorem post_body_uses_raw_field_values_witness :
    (handleFormSubmit "https://formspree.io/f/abc123"
        ⟨" Jane Doe ", " jane@example.com ", "This is a long enough message."⟩
        ⟨false, "Send Message"⟩ (.response 200)).sentBody =
      some ⟨" Jane Doe ", " jane@example.com ",
        "This is a long enough message."⟩ :=
  post_body_uses_raw_field_values "https://formspree.io/f/abc123"
    ⟨" Jane Doe ", " jane@example.com ", "This is a long enough message."⟩
    ⟨false, "Send Message"⟩ (.response 200) (by decide)

/-- C10: for a field whose id is none of `name`, `email`, `message`,
`validateField` returns valid on every value (including the empty string)
and leaves the field with no error styling and an empty error message. -/
theorem unknown_field_always_valid (id v : String) (h1 : id ≠ "name")
    (h2 : id ≠ "email") (h3 : id ≠ "message") :
    validateField id v = (true, ⟨false, ""⟩) := by
  simp [validateField, validateRules_other id (jsTrim v) h1 h2 h3]

theorem unknown_field_always_valid_witness :
    validateField "subject" "" = (true, ⟨false, ""⟩) :=
  unknown_field_always_valid "subject" "" (by decide) (by decide) (by decide)

/-- C5: `form.reset()` runs exactly when the attempt ends in a 2xx
response (after passing the placeholder guard and validation); on every
other outcome the field contents are left unchanged. -/
theorem form_reset_iff_success (action : String) (form : FormState)
    (button : ButtonState) (fr : FetchOutcome) :
    ((handleFormSubmit action form button fr).resetCalled = true ↔
      (placeholderEndpoint action = false ∧ allFieldsValid form = true ∧
        ∃ s, fr = .response s ∧ 200 ≤ s ∧ s ≤ 299)) ∧
    ((handleFormSubmit action form button fr).resetCalled = false →
      (handleFormSubmit action form button fr).formAfter = form) := by
  by_cases hp : placeholderEndpoint action = true
  · rw [handleFormSubmit_placeholder _ _ _ _ hp]
    simp [hp]
  · have hp' : placeholderEndpoint action = false := by simpa using hp
    by_cases hv : allFieldsValid form = true
    · cases fr with
      | response s =>
        by_cases hs : 200 ≤ s ∧ s ≤ 299
        · rw [handleFormSubmit_2xx _ _ _ _ hp' hv hs]
          simp only [true_iff, iff_true]
          constructor
          · exact ⟨hp', hv, s, rfl, hs⟩
          · intro h
            simp at h
        · rw [handleFormSubmit_non2xx _ _ _ _ hp' hv hs]
          constructor
          · simp only [false_iff, iff_false]
            constructor
            · intro h
              simp at h
            · rintro ⟨-, -, s', hs', h2xx⟩
              cases hs'
              exact absurd h2xx hs
          · intro
            rfl
      | failure msg =>
        rw [handleFormSubmit_transportFailure _ _ _ _ hp' hv]
        constructor
        · constructor
          · intro h
            simp at h
          · rintro ⟨-, -, s', hs', -⟩
            cases hs'
        · intro
          rfl
    · have hv' : allFieldsValid form = false := by simpa using hv
      rw [handleFormSubmit_invalid _ _ _ _ hp' hv']
      constructor
      · constructor
        · intro h
          simp at h
        · rintro ⟨-, hvv, -⟩
          rw [hv'] at hvv
          cases hvv
      · intro
        rfl

theorem form_reset_iff_success_witness :
    ((handleFormSubmit "https://formspree.io/f/abc123"
        ⟨"Jane Doe", "jane@example.com", "This is a long enough message."⟩
        ⟨false, "Send Message"⟩ (.response 200)).resetCalled = true) ∧
    ((handleFormSubmit "https://formspree.io/f/abc123"
        ⟨"Jane Doe", "jane@example.com", "This is a long enough message."⟩
        ⟨false, "Send Message"⟩ (.response 500)).formAfter =
      ⟨"Jane Doe", "jane@example.com", "This is a long enough message."⟩) :=
  ⟨(form_reset_iff_success "https://formspree.io/f/abc123"
      ⟨"Jane Doe", "jane@example.com", "This is a long enough message."⟩
      ⟨false, "Send Message"⟩ (.response 200)).1.mpr
      ⟨by decide, by decide, 200, rfl, by decide, by decide⟩,
   (form_reset_iff_success "https://formspree.io/f/abc123"
      ⟨"Jane Doe", "jane@example.com", "This is a long enough message."⟩
      ⟨false, "Send Message"⟩ (.response 500)).2 (by decide)⟩

/-- C6: on every pass, the submit button ends in its pre-submit state
(given that the button was enabled when the submit event fired); whenever
a request was issued, the `.finally` restoration ran exactly once and the
button had been put in the disabled `Sending...` state for the duration;
when no request was issued, the button was never touched. -/
theorem submitting_state_restored (action : String) (form : FormState)
    (button : ButtonState) (fr : FetchOutcome)
    (hd : button.disabled = false) :
    (handleFormSubmit action form button fr).buttonAfter = button ∧
    ((handleFormSubmit action form button fr).fetchIssued = true →
      (handleFormSubmit action form button fr).restoreCount = 1 ∧
      (handleFormSubmit action form button fr).buttonDuring =
        some ⟨true, "Sending..."⟩) ∧
    ((handleFormSubmit action form button fr).fetchIssued = false →
      (handleFormSubmit action form button fr).restoreCount = 0 ∧
      (handleFormSubmit action form button fr).buttonDuring = none) := by
  obtain ⟨bd, bt⟩ := button
  simp only at hd
  subst hd
  by_cases hp : placeholderEndpoint action = true
  · rw [handleFormSubmit_placeholder _ _ _ _ hp]
    simp
  · have hp' : placeholderEndpoint action = false := by simpa using hp
    by_cases hv : allFieldsValid form = true
    · cases fr with
      | response s =>
        by_cases hs : 200 ≤ s ∧ s ≤ 299
        · rw [handleFormSubmit_2xx _ _ _ _ hp' hv hs]
          simp
        · rw [handleFormSubmit_non2xx _ _ _ _ hp' hv hs]
          simp
      | failure msg =>
        rw [handleFormSubmit_transportFailure _ _ _ _ hp' hv]
        simp
    · have hv' : allFieldsValid form = false := by simpa using hv
      rw [handleFormSubmit_invalid _ _ _ _ hp' hv']
      simp

theorem submitting_state_restored_witness :
    (handleFormSubmit "https://formspree.io/f/abc123"
        ⟨"Jane Doe", "jane@example.com", "This is a long enough message."⟩
        ⟨false, "Send Message"⟩ (.failure "Failed to fetch")).buttonAfter =
      ⟨false, "Send Message"⟩ ∧
    ((handleFormSubmit "https://formspree.io/f/abc123"
        ⟨"Jane Doe", "jane@example.com", "This is a long enough message."⟩
        ⟨false, "Send Message"⟩ (.failure "Failed to fetch")).restoreCount = 1) :=
  ⟨(submitting_state_restored "https://formspree.io/f/abc123"
      ⟨"Jane Doe", "jane@example.com", "This is a long enough message."⟩
      ⟨false, "Send Message"⟩ (.failure "Failed to fetch") rfl).1,
   ((submitting_state_restored "https://formspree.io/f/abc123"
      ⟨"Jane Doe", "jane@example.com", "This is a long enough message."⟩
      ⟨false, "Send Message"⟩ (.failure "Failed to fetch") rfl).2.1
      (by decide)).1⟩

/-- C4: on an issued submission the settled request is classified
exhaustively and exclusively — 2xx to Success, 404 to NotFound, 422 to
RejectedByServer, any other status to ServerError(status), a transport
failure (whose rejection message, as produced by the browser for a request
that received no response, contains `Failed to fetch`) to NetworkFailure —
and the status region shows the single fixed message of that outcome. -/
theorem response_classification (action : String) (form : FormState)
    (button : ButtonState) (fr : FetchOutcome)
    (hp : placeholderEndpoint action = false)
    (hv : allFieldsValid form = true)
    (htr : ∀ msg, fr = .failure msg → strIncludes msg "Failed to fetch" = true) :
    (handleFormSubmit action form button fr).statusShown =
      some (outcomeMessage (classifyResult fr)) := by
  cases fr with
  | response s =>
    by_cases hs : 200 ≤ s ∧ s ≤ 299
    · rw [handleFormSubmit_2xx _ _ _ _ hp hv hs]
      simp [classifyResult, outcomeMessage, hs]
    · rw [handleFormSubmit_non2xx _ _ _ _ hp hv hs]
      by_cases h404 : s = 404
      · subst h404
        simp [classifyResult, outcomeMessage, hs, catchMessage]
      · by_cases h422 : s = 422
        · subst h422
          simp [classifyResult, outcomeMessage, hs, h404, catchMessage]
        · simp [classifyResult, outcomeMessage, hs, h404, h422,
            catchMessage_formspreeError]
  | failure msg =>
    rw [handleFormSubmit_transportFailure _ _ _ _ hp hv,
      catchMessage_failedToFetch msg (htr msg rfl)]
    simp [classifyResult, outcomeMessage]

theorem response_classification_witness :
    (handleFormSubmit "https://formspree.io/f/abc123"
        ⟨"Jane Doe", "jane@example.com", "This is a long enough message."⟩
        ⟨false, "Send Message"⟩ (.response 404)).statusShown =
      some (outcomeMessage (classifyResult (.response 404))) :=
  response_classification "https://formspree.io/f/abc123"
    ⟨"Jane Doe", "jane@example.com", "This is a long enough message."⟩
    ⟨false, "Send Message"⟩ (.response 404) (by decide) (by decide)
    (fun msg h => nomatch h)

/-- C7 counterexample: a submission with valid fields that ends in a
transport-level failure shows the fixed network-error status message, and
that message contains neither the fallback contact email address nor any
`@` at all — it suggests no fallback contact channel.  The fallback email
appears instead in the message of the generic (other-status) error branch. -/
theorem transport_failure_no_fallback_contact :
    (handleFormSubmit "https://formspree.io/f/abc123"
        ⟨"Jane Doe", "jane@example.com", "This is a long enough message."⟩
        ⟨false, "Send Message"⟩ (.failure "Failed to fetch")).statusShown =
      some (networkErrorMsg, "error") ∧
    strIncludes networkErrorMsg "narvariyasourabh447@gmail.com" = false ∧
    strIncludes networkErrorMsg "@" = false ∧
    strIncludes fallbackErrorMsg "narvariyasourabh447@gmail.com" = true := by
  exact ⟨by decide, by decide, by decide, by decide⟩

/-- C7 amended: a submission that ends in a transport-level failure shows
the network-error message, which does not suggest a fallback contact
channel; the message that does suggest the fallback contact email is the
one shown for the remaining error outcomes (`ServerError(status)` and any
unrecognized error). -/
theorem transport_failure_network_message (action : String) (form : FormState)
    (button : ButtonState) (msg : String)
    (hp : placeholderEndpoint action = false)
    (hv : allFieldsValid form = true)
    (hmsg : strIncludes msg "Failed to fetch" = true) :
    (handleFormSubmit action form button (.failure msg)).statusShown =
      some (networkErrorMsg, "error") ∧
    strIncludes networkErrorMsg "narvariyasourabh447@gmail.com" = false ∧
    (∀ s, ¬(200 ≤ s ∧ s ≤ 299) → s ≠ 404 → s ≠ 422 →
      (handleFormSubmit action form button (.response s)).statusShown =
        some (fallbackErrorMsg, "error")) ∧
    strIncludes fallbackErrorMsg "narvariyasourabh447@gmail.com" = true := by
  refine ⟨?_, by decide, ?_, by decide⟩
  · rw [handleFormSubmit_transportFailure _ _ _ _ hp hv,
      catchMessage_failedToFetch msg hmsg]
  · intro s hs h404 h422
    rw [handleFormSubmit_non2xx _ _ _ _ hp hv hs]
    simp [h404, h422, catchMessage_formspreeError]

theorem transport_failure_network_message_witness :
    (handleFormSubmit "https://formspree.io/f/abc123"
        ⟨"Jane Doe", "jane@example.com", "This is a long enough message."⟩
        ⟨false, "Send Message"⟩ (.failure "Failed to fetch")).statusShown =
      some (networkErrorMsg, "error") ∧
    (handleFormSubmit "https://formspree.io/f/abc123"
        ⟨"Jane Doe", "jane@example.com", "This is a long enough message."⟩
        ⟨false, "Send Message"⟩ (.response 500)).statusShown =
      some (fallbackErrorMsg, "error") :=
  ⟨(transport_failure_network_message "https://formspree.io/f/abc123"
      ⟨"Jane Doe", "jane@example.com", "This is a long enough message."⟩
      ⟨false, "Send Message"⟩ "Failed to fetch" (by decide) (by decide)
      (by decide)).1,
   (transport_failure_network_message "https://formspree.io/f/abc123"
      ⟨"Jane Doe", "jane@example.com", "This is a long enough message."⟩
      ⟨false, "Send Message"⟩ "Failed to fetch" (by decide) (by decide)
      (by decide)).2.2.1 500 (by decide) (by decide) (by decide)⟩

/-- C2: on the trimmed value, `validateField` implements the rule table
with first-failing-rule-wins ordering: name is invalid exactly when empty,
shorter than 2, or not matching `[a-zA-Z\s-]` (plus apostrophe), with the
message of the first failing rule; email is invalid exactly when empty or
not matching the email pattern; message is invalid exactly when empty or
shorter than 10, and trimmed length exactly 10 is valid (boundary). -/
theorem validateField_rule_table (v : String) :
    ((validateField "name" v).1 = false ↔
      ((jsTrim v).length = 0 ∨ (jsTrim v).length < 2 ∨
        nameRegexTest (jsTrim v) = false)) ∧
    ((validateField "email" v).1 = false ↔
      ((jsTrim v).length = 0 ∨ emailRegexTest (jsTrim v) = false)) ∧
    ((validateField "message" v).1 = false ↔
      ((jsTrim v).length = 0 ∨ (jsTrim v).length < 10)) ∧
    ((jsTrim v).length = 10 → (validateField "message" v).1 = true) ∧
    ((jsTrim v).length = 0 →
      (validateField "name" v).2.errorText = "Name is required") ∧
    (0 < (jsTrim v).length → (jsTrim v).length < 2 →
      (validateField "name" v).2.errorText =
        "Name must be at least 2 characters") ∧
    (2 ≤ (jsTrim v).length → nameRegexTest (jsTrim v) = false →
      (validateField "name" v).2.errorText =
        "Name can only contain letters, spaces, hyphens, and apostrophes") ∧
    ((jsTrim v).length = 0 →
      (validateField "email" v).2.errorText = "Email is required") ∧
    (0 < (jsTrim v).length → emailRegexTest (jsTrim v) = false →
      (validateField "email" v).2.errorText =
        "Please enter a valid email address") ∧
    ((jsTrim v).length = 0 →
      (validateField "message" v).2.errorText = "Message is required") ∧
    (0 < (jsTrim v).length → (jsTrim v).length < 10 →
      (validateField "message" v).2.errorText =
        "Message must be at least 10 characters") := by
  have hfn := validateField_fst "name" v
  have hfe := validateField_fst "email" v
  have hfm := validateField_fst "message" v
  have hsn := validateField_snd "name" v
  have hse := validateField_snd "email" v
  have hsm := validateField_snd "message" v
  rw [validateRules_name] at hfn hsn
  rw [validateRules_email] at hfe hse
  rw [validateRules_message] at hfm hsm
  refine ⟨?_, ?_, ?_, ?_, ?_, ?_, ?_, ?_, ?_, ?_, ?_⟩
  · rw [hfn]
    split_ifs with h1 h2 h3 <;> simp_all
  · rw [hfe]
    split_ifs with h1 h2 <;> simp_all
  · rw [hfm]
    split_ifs with h1 h2 <;> simp_all
  · intro h10
    rw [hfm]
    split_ifs with h1 h2 <;> first | rfl | omega
  · intro h1
    rw [hsn]
    split_ifs <;> simp_all
  · intro h1 h2
    rw [hsn]
    split_ifs <;> simp_all
  · intro h1 h2
    rw [hsn]
    split_ifs <;> simp_all
    omega
  · intro h1
    rw [hse]
    split_ifs <;> simp_all
  · intro h1 h2
    rw [hse]
    split_ifs <;> simp_all
  · intro h1
    rw [hsm]
    split_ifs <;> simp_all
  · intro h1 h2
    rw [hsm]
    split_ifs <;> simp_all

theorem validateField_rule_table_witness :
    ((jsTrim "exactly10!").length = 10 ∧
      (validateField "message" "exactly10!").1 = true) ∧
    (0 < (jsTrim "A").length ∧ (jsTrim "A").length < 2 ∧
      (validateField "name" "A").2.errorText =
        "Name must be at least 2 characters") :=
  ⟨⟨by decide, (validateField_rule_table "exactly10!").2.2.2.1 (by decide)⟩,
   ⟨by decide, by decide,
    (validateField_rule_table "A").2.2.2.2.2.1 (by decide) (by decide)⟩⟩

end Portfolio
